import Mathlib

/-!
Verification of the macOS `Connection` core
(`window/src/os/macos/connection.rs`).

The Rust code is shallowly embedded:

* the window registry `RefCell<HashMap<usize, Rc<RefCell<WindowInner>>>>`
  becomes an association list `List (Nat × W)` with unique keys, where `W`
  is the (abstract) window state; mutating through a cloned `Rc` handle is
  modelled by updating the entry found by lookup in place;
* the `AtomicUsize` window-id counter becomes a `Nat` that wraps modulo
  `2^64` on `fetch_add`, exactly as `usize` does on a 64-bit target;
* the process-wide `SPAWN_QUEUE` (the Work-Queue Bridge) becomes a FIFO
  `List (WorkItem W)`; `SpawnQueueExecutor.execute` appends, and the
  deferred closures the code submits are reified as `WorkItem`
  constructors interpreted by `runWorkItem`;
* a spawned future (`Task`) is modelled as the number of poll steps it
  needs before completing; the `Tasks` table (which lives in
  `window/src/tasks.rs`, outside the sources given) is modelled from the
  spec's contract for `add_task` / `poll_by_slot`;
* the per-timer boxed closure handed to `CFRunLoopTimerCreate` becomes a
  heap cell `TimerBox` holding an optional closure state together with a
  deallocation counter; `timer_callback` and `release_callback` mirror the
  two `extern "C"` trampolines;
* the `f64` seconds arithmetic of `schedule_timer` is modelled with exact
  rationals (`ℚ`); floating-point rounding is abstracted away.
-/

namespace Wezterm

/-- The number of values of a 64-bit `usize`: `2 ^ 64`. -/
def USIZE : Nat := 18446744073709551616

/-- A spawned future, modelled as the number of poll steps it still needs
before completing (`0` means the next poll completes it). -/
abbrev Task := Nat

/-- The `Connection` struct: window registry, window-id counter, task
table.  The foreign `ns_app : id` field carries no modelled state. -/
structure Connection (W : Type) where
  windows : List (Nat × W)
  next_window_id : Nat
  tasks : List (Option Task)
  deriving Repr, DecidableEq

/-- A deferred closure submitted to the spawn queue.  The code submits
exactly two shapes of closure: the window-mutation closure built by
`with_window_inner`, and the poll request built by `wake_task_by_id`. -/
inductive WorkItem (W : Type) where
  | withWindow (id : Nat) (f : W → W)
  | pollTask (slot : Nat)

/-- The loop-thread world: the connection plus the process-wide
`SPAWN_QUEUE` FIFO. -/
structure Sys (W : Type) where
  conn : Connection W
  queue : List (WorkItem W)

/-- The registry's `HashMap::get`, as first-match lookup in an
association list (keys are unique in every reachable registry). -/
def lookupWindow {W : Type} : List (Nat × W) → Nat → Option W
  | [], _ => none
  | (k, w) :: rest, i => if k = i then some w else lookupWindow rest i

/-- Mutation through the `Rc<RefCell<WindowInner>>` handle returned by
lookup: the first entry with the given key is replaced in place. -/
def updateWindow {W : Type} : List (Nat × W) → Nat → W → List (Nat × W)
  | [], _, _ => []
  | (k, v) :: rest, i, w =>
    if k = i then (k, w) :: rest else (k, v) :: updateWindow rest i w

/-- Method `Connection::next_window_id`: `fetch_add(1, Relaxed)` returns the
previous counter value; the stored counter wraps modulo `2^64`. -/
def next_window_id {W : Type} (c : Connection W) : Nat × Connection W :=
  (c.next_window_id, { c with next_window_id := (c.next_window_id + 1) % USIZE })

/-- Method `Connection::window_by_id`: `self.windows.borrow().get(&id).map(Rc::clone)`. -/
def window_by_id {W : Type} (c : Connection W) (i : Nat) : Option W :=
  lookupWindow c.windows i

/-- Calling `window_by_id` as a method through `&self`: the shared borrow
returns the lookup result and hands the connection back untouched. -/
def window_by_id_call {W : Type} (c : Connection W) (i : Nat) :
    Option W × Connection W :=
  (window_by_id c i, c)

/-- Modelled from the spec: `Tasks::add_task` (in `window/src/tasks.rs`,
not among the given sources) "stores the unit of work, returns a fresh
slot id distinct from all currently-pending slots". -/
def add_task (ts : List (Option Task)) (t : Task) : Nat × List (Option Task) :=
  (ts.length, ts ++ [some t])

/-- One poll step of a stored future: completing (`none`) when no steps
remain, otherwise re-suspending with one step fewer. -/
def pollFuture (t : Task) : Option Task :=
  if t = 0 then none else some (t - 1)

/-- Modelled from the spec: `Tasks::poll_by_slot` "advances the stored
unit of work one step; if it completes, removes it from the table; if the
slot is unknown (already completed or invalid), this is a silent no-op". -/
def poll_by_slot (ts : List (Option Task)) (slot : Nat) : List (Option Task) :=
  match ts[slot]? with
  | some (some t) => ts.set slot (pollFuture t)
  | _ => ts

/-- Method `Connection::wake_task_by_id`: submits a poll request for `slot`
through `SpawnQueueExecutor {}.execute` (modelled from the spec as a FIFO
append; the queue lives outside the given sources). -/
def wake_task_by_id {W : Type} (sys : Sys W) (slot : Nat) : Sys W :=
  { sys with queue := sys.queue ++ [WorkItem.pollTask slot] }

/-- Method `Connection::spawn_task`: insert the future into the task table and
immediately post a wake for the returned slot. -/
def spawn_task {W : Type} (sys : Sys W) (fut : Task) : Sys W :=
  let r := add_task sys.conn.tasks fut
  wake_task_by_id { sys with conn := { sys.conn with tasks := r.2 } } r.1

/-- Method `Connection::with_window_inner`: posts through the spawn queue a
closure that will look the window up and, if present, mutate it. -/
def with_window_inner {W : Type} (sys : Sys W) (i : Nat) (f : W → W) : Sys W :=
  { sys with queue := sys.queue ++ [WorkItem.withWindow i f] }

/-- Running one dequeued closure on the loop thread.  The two branches are
the bodies of the closures built by `with_window_inner` (lookup, and only
if some, borrow mutably and apply `f`) and by `wake_task_by_id`
(`conn.tasks.poll_by_slot(slot)`). -/
def runWorkItem {W : Type} (sys : Sys W) (item : WorkItem W) : Sys W :=
  match item with
  | WorkItem.withWindow i f =>
    match window_by_id sys.conn i with
    | some h =>
      { sys with conn := { sys.conn with windows := updateWindow sys.conn.windows i (f h) } }
    | none => sys
  | WorkItem.pollTask slot =>
    { sys with conn := { sys.conn with tasks := poll_by_slot sys.conn.tasks slot } }

/-- The `NSApplicationActivationPolicy` values. -/
inductive ActivationPolicy where
  | regular
  | accessory
  | prohibited
  deriving Repr, DecidableEq

/-- Process-global state outside the connection: whether the lazy
`SPAWN_QUEUE` static has been created, the activation policy set on the
shared `NSApp`, and whether the process-wide singleton slot is taken. -/
structure Global where
  spawnQueueInit : Bool
  activationPolicy : Option ActivationPolicy
  singletonExists : Bool
  deriving Repr, DecidableEq

/-- Modelled from the spec: `SPAWN_QUEUE.run()` at creation time
"initializes the Work-Queue Bridge's underlying primitive (idempotent —
safe to call before any work exists)"; the queue itself has nothing to
run yet. -/
def spawnQueueRun (g : Global) : Global :=
  { g with spawnQueueInit := true }

/-- Method `Connection::create_new`: force the `SPAWN_QUEUE`, declare the
process a regular foreground application, and return the connection with
an empty registry, a default (empty) task table and the id counter at 1. -/
def create_new (W : Type) (g : Global) : Global × Except String (Connection W) :=
  let g1 := spawnQueueRun g
  let g2 := { g1 with activationPolicy := some ActivationPolicy.regular }
  (g2, Except.ok { windows := [], next_window_id := 1, tasks := [] })

/-- Modelled from the spec: the process-wide singleton establishment
("Fails if the singleton already exists") lives in the cross-platform
`Connection::init` wrapper, outside the given sources. -/
def Connection.init (W : Type) (g : Global) : Global × Except String (Connection W) :=
  if g.singletonExists then (g, Except.error "connection already initialized")
  else
    let r := create_new W g
    ({ r.1 with singletonExists := true }, r.2)

/-- Method `ConnectionOps::run_message_loop`: `self.ns_app.run()` transfers
control to the foreign loop (modelled as an arbitrary transformation
`loopBody` of the world); on return the registry is cleared and `Ok(())`
is returned unconditionally. -/
def run_message_loop {W : Type} (loopBody : Sys W → Sys W) (sys : Sys W) :
    Except String Unit × Sys W :=
  let sys1 := loopBody sys
  (Except.ok (), { sys1 with conn := { sys1.conn with windows := [] } })

/-- The connection as built by `create_new` (at `W := Unit`), from which
the id-allocation traces below start. -/
def conn0 : Connection Unit :=
  { windows := [], next_window_id := 1, tasks := [] }

/-- The connection after `k` calls to `next_window_id`, starting from the
freshly created connection. -/
def connAfter : Nat → Connection Unit
  | 0 => conn0
  | k + 1 => (next_window_id (connAfter k)).2

/-- The id returned by the `k`-th call (0-indexed) to `next_window_id`. -/
def issuedId (k : Nat) : Nat :=
  (next_window_id (connAfter k)).1

/-! ## Timer marshaling -/

/-- The heap allocation made by `Box::into_raw(Box::new(callback))`:
`contents` is the boxed closure state (`none` once freed), `released`
counts how many times the box has been deallocated. -/
structure TimerBox (σ : Type) where
  contents : Option σ
  released : Nat
  deriving Repr, DecidableEq

/-- The single boxing of the callback done by `schedule_timer`. -/
def newTimerBox {σ : Type} (init : σ) : TimerBox σ :=
  { contents := some init, released := 0 }

/-- The `extern "C" fn timer_callback`: reconstitute `*mut F` from the
context pointer and invoke the closure in place (`(*callback)()`), without
taking ownership; the closure state advances by one `step`. -/
def timer_callback {σ : Type} (step : σ → σ) (b : TimerBox σ) : TimerBox σ :=
  { b with contents := Option.map step b.contents }

/-- The `extern "C" fn release_callback`: `Box::from_raw` reconstructs
ownership and `drop` deallocates the box. -/
def release_callback {σ : Type} (b : TimerBox σ) : TimerBox σ :=
  { contents := none, released := b.released + 1 }

/-- What the foreign run loop does to the box: a sequence of fire and
release trampoline invocations. -/
inductive TimerEvent where
  | fire
  | release
  deriving Repr, DecidableEq

/-- Run a sequence of trampoline invocations against the box. -/
def runTimerEvents {σ : Type} (step : σ → σ) : TimerBox σ → List TimerEvent → TimerBox σ
  | b, [] => b
  | b, TimerEvent.fire :: rest => runTimerEvents step (timer_callback step b) rest
  | b, TimerEvent.release :: rest => runTimerEvents step (release_callback b) rest

/-- The foreign API's contract (CFRunLoop invalidation): some number of
fires, then exactly one release after no further fires will occur. -/
def fireTrace (n : Nat) : List TimerEvent :=
  List.replicate n TimerEvent.fire ++ [TimerEvent.release]

/-- Type `Duration`: whole seconds (`as_secs`) and subsecond nanoseconds
(`subsec_nanos`). -/
structure Duration where
  secs : Nat
  subsec_nanos : Nat
  deriving Repr, DecidableEq

/-- The `secs_f64` computation of `schedule_timer`, with `f64` modelled
as exact rational arithmetic. -/
def secs_f64 (d : Duration) : ℚ :=
  (d.secs : ℚ) + (d.subsec_nanos : ℚ) / 1000000000

/-- The numeric arguments `schedule_timer` hands to
`CFRunLoopTimerCreate`. -/
structure CFRunLoopTimerParams where
  fireDate : ℚ
  interval : ℚ
  flags : Nat
  order : Int
  deriving Repr, DecidableEq

/-- The registration call made by `schedule_timer`:
`CFRunLoopTimerCreate(null, now + secs_f64, secs_f64, 0, 0, ...)`, where
`now` is `CFAbsoluteTimeGetCurrent()`. -/
def schedule_timer (now : ℚ) (d : Duration) : CFRunLoopTimerParams :=
  { fireDate := now + secs_f64 d, interval := secs_f64 d, flags := 0, order := 0 }

/-! ## Helper lemmas -/

theorem lookupWindow_nil {W : Type} (i : Nat) :
    lookupWindow ([] : List (Nat × W)) i = none := rfl

theorem lookupWindow_mem {W : Type} (ws : List (Nat × W)) (i : Nat) (h : W)
    (hl : lookupWindow ws i = some h) : (i, h) ∈ ws := by
  induction ws with
  | nil => simp [lookupWindow] at hl
  | cons p rest ih =>
    obtain ⟨k, v⟩ := p
    by_cases hk : k = i
    · subst hk
      simp [lookupWindow] at hl
      subst hl
      exact List.mem_cons_self _ _
    · simp [lookupWindow, hk] at hl
      exact List.mem_cons_of_mem _ (ih hl)

theorem lookupWindow_eq_none_of_not_mem {W : Type} (ws : List (Nat × W)) (i : Nat)
    (hnm : ∀ h : W, (i, h) ∉ ws) : lookupWindow ws i = none := by
  induction ws with
  | nil => rfl
  | cons p rest ih =>
    obtain ⟨k, v⟩ := p
    by_cases hk : k = i
    · subst hk
      exact absurd (List.mem_cons_self _ _) (hnm v)
    · simp only [lookupWindow, hk, if_false]
      exact ih fun h hmem => hnm h (List.mem_cons_of_mem _ hmem)

theorem lookupWindow_of_mem_nodup {W : Type} (ws : List (Nat × W)) (i : Nat) (h : W)
    (hmem : (i, h) ∈ ws) (hnd : ws.Pairwise (fun a b => a.1 ≠ b.1)) :
    lookupWindow ws i = some h := by
  induction ws with
  | nil => simp at hmem
  | cons p rest ih =>
    obtain ⟨k, v⟩ := p
    rcases List.mem_cons.mp hmem with heq | hmem'
    · rw [Prod.mk.injEq] at heq
      obtain ⟨hk, hv⟩ := heq
      simp [lookupWindow, hk, hv]
    · have hk : k ≠ i := by
        have := (List.pairwise_cons.mp hnd).1 _ hmem'
        simpa using this
      simp only [lookupWindow, hk, if_false]
      exact ih hmem' (List.pairwise_cons.mp hnd).2

theorem lookupWindow_updateWindow_self {W : Type} (ws : List (Nat × W)) (i : Nat)
    (h w : W) (hl : lookupWindow ws i = some h) :
    lookupWindow (updateWindow ws i w) i = some w := by
  induction ws with
  | nil => simp [lookupWindow] at hl
  | cons p rest ih =>
    obtain ⟨k, v⟩ := p
    by_cases hk : k = i
    · simp [lookupWindow, updateWindow, hk]
    · simp only [lookupWindow, hk, if_false] at hl
      simp only [updateWindow, hk, if_false, lookupWindow]
      exact ih hl

theorem lookupWindow_updateWindow_other {W : Type} (ws : List (Nat × W)) (i j : Nat)
    (w : W) (hij : j ≠ i) :
    lookupWindow (updateWindow ws i w) j = lookupWindow ws j := by
  induction ws with
  | nil => rfl
  | cons p rest ih =>
    obtain ⟨k, v⟩ := p
    by_cases hk : k = i
    · subst hk
      have hkj : k ≠ j := fun hh => hij hh.symm
      simp [lookupWindow, updateWindow, hkj]
    · simp only [updateWindow, hk, if_false, lookupWindow]
      by_cases hkj : k = j
      · simp [hkj]
      · simp only [hkj, if_false]
        exact ih

theorem connAfter_next_window_id (k : Nat) :
    (connAfter k).next_window_id = (1 + k) % USIZE := by
  induction k with
  | zero =>
    show (1 : Nat) = (1 + 0) % USIZE
    rw [Nat.add_zero]
    exact (Nat.mod_eq_of_lt (by decide)).symm
  | succ k ih =>
    show ((connAfter k).next_window_id + 1) % USIZE = (1 + (k + 1)) % USIZE
    rw [ih, Nat.mod_add_mod, Nat.add_assoc]

theorem issuedId_closed (k : Nat) : issuedId k = (1 + k) % USIZE :=
  connAfter_next_window_id k

theorem issuedId_inj (i j : Nat) (hij : i < j) (hj : j < USIZE) :
    issuedId i ≠ issuedId j := by
  rw [issuedId_closed, issuedId_closed]
  unfold USIZE at *
  omega

theorem issuedId_mono (i j : Nat) (hij : i < j) (hj : j < USIZE - 1) :
    issuedId i < issuedId j := by
  rw [issuedId_closed, issuedId_closed]
  unfold USIZE at *
  omega

theorem issuedId_USIZE : issuedId USIZE = 1 := by
  rw [issuedId_closed, Nat.add_mod_right]
  exact Nat.mod_eq_of_lt (by decide)

theorem runTimerEvents_append {σ : Type} (step : σ → σ) (b : TimerBox σ)
    (l1 l2 : List TimerEvent) :
    runTimerEvents step b (l1 ++ l2) = runTimerEvents step (runTimerEvents step b l1) l2 := by
  induction l1 generalizing b with
  | nil => rfl
  | cons e rest ih =>
    cases e with
    | fire => exact ih (timer_callback step b)
    | release => exact ih (release_callback b)

theorem runTimerEvents_fires {σ : Type} (step : σ → σ) (b : TimerBox σ) (k : Nat) :
    runTimerEvents step b (List.replicate k TimerEvent.fire) =
      { contents := Option.map (step^[k]) b.contents, released := b.released } := by
  induction k generalizing b with
  | zero =>
    cases b with
    | mk c r => cases c <;> rfl
  | succ k ih =>
    rw [List.replicate_succ]
    show runTimerEvents step (timer_callback step b) (List.replicate k TimerEvent.fire) = _
    rw [ih]
    cases b with
    | mk c r => cases c <;> rfl

/-! ## Claim theorems -/

/-- C4: when `run_message_loop` returns, the window registry has been
cleared: the registry is empty and `window_by_id` on any window id
(in particular any previously registered one) returns `none`, for every
behaviour of the foreign loop. -/
theorem C4_run_message_loop_clears_registry {W : Type}
    (loopBody : Sys W → Sys W) (sys : Sys W) :
    (run_message_loop loopBody sys).2.conn.windows = [] ∧
      ∀ i : Nat, window_by_id (run_message_loop loopBody sys).2.conn i = none := by
  refine ⟨rfl, fun i => ?_⟩
  show lookupWindow ([] : List (Nat × W)) i = none
  rfl

/-- C10: `run_message_loop` always returns `Ok(())` once the foreign loop
exits, for every behaviour of the foreign loop and every starting state;
no native-loop failure is ever surfaced to the caller. -/
theorem C10_run_message_loop_always_ok {W : Type}
    (loopBody : Sys W → Sys W) (sys : Sys W) :
    (run_message_loop loopBody sys).1 = Except.ok () := rfl

/-- C6: `window_by_id` returns the stored handle when the id is present
(given the registry's unique-key invariant), returns `none` when the id is
absent, only ever returns handles that are actually stored, and — being a
`&self` borrow — hands the registry back unmodified, never creating an
entry. -/
theorem C6_window_by_id_lookup {W : Type} (c : Connection W) (i : Nat) :
    (∀ h : W, (i, h) ∈ c.windows →
        c.windows.Pairwise (fun a b => a.1 ≠ b.1) → window_by_id c i = some h) ∧
      ((∀ h : W, (i, h) ∉ c.windows) → window_by_id c i = none) ∧
      (∀ h : W, window_by_id c i = some h → (i, h) ∈ c.windows) ∧
      (window_by_id_call c i).2 = c :=
  ⟨fun h hmem hnd => lookupWindow_of_mem_nodup c.windows i h hmem hnd,
   fun hnm => lookupWindow_eq_none_of_not_mem c.windows i hnm,
   fun h hl => lookupWindow_mem c.windows i h hl,
   rfl⟩

/-- Concrete witness for C6: in a registry holding windows 1 and 2,
lookup of 1 finds its handle and lookup of 7 is empty. -/
theorem C6_window_by_id_lookup_witness :
    window_by_id ({ windows := [(1, 10), (2, 20)], next_window_id := 3, tasks := [] } :
        Connection Nat) 1 = some 10 ∧
      window_by_id ({ windows := [(1, 10), (2, 20)], next_window_id := 3, tasks := [] } :
        Connection Nat) 7 = none :=
  ⟨(C6_window_by_id_lookup _ 1).1 10 (by decide) (by decide),
   (C6_window_by_id_lookup _ 7).2.1 (by intro h; simp)⟩

/-- C7: `schedule_timer` registers the timer with first fire time
`now + interval` and repeat period `interval`, where the interval in
seconds is the duration's whole seconds plus its subsecond nanoseconds
divided by 1,000,000,000; the interval is non-negative, and a zero
duration yields a first fire at `now`. (`f64` arithmetic is modelled as
exact rational arithmetic.) -/
theorem C7_schedule_timer_arithmetic (now : ℚ) (d : Duration) :
    (schedule_timer now d).fireDate =
        now + ((d.secs : ℚ) + (d.subsec_nanos : ℚ) / 1000000000) ∧
      (schedule_timer now d).interval =
        (d.secs : ℚ) + (d.subsec_nanos : ℚ) / 1000000000 ∧
      0 ≤ (schedule_timer now d).interval ∧
      (d.secs = 0 → d.subsec_nanos = 0 → (schedule_timer now d).fireDate = now) := by
  refine ⟨rfl, rfl, ?_, fun hs hn => ?_⟩
  · show 0 ≤ secs_f64 d
    unfold secs_f64
    positivity
  · show now + secs_f64 d = now
    unfold secs_f64
    rw [hs, hn]
    norm_num

/-- Concrete witness for C7: a zero duration fires at `now` itself. -/
theorem C7_schedule_timer_arithmetic_witness :
    (schedule_timer 5 { secs := 0, subsec_nanos := 0 }).fireDate = 5 :=
  (C7_schedule_timer_arithmetic 5 { secs := 0, subsec_nanos := 0 }).2.2.2 rfl rfl

/-- C3: `with_window_inner` posts its closure through the spawn queue;
when the posted work runs with the id absent from the registry, the state
is returned unchanged and the user function is not invoked (the result
does not depend on it), with no error — the interpreter is total; when the
id is present, the user function is applied to the stored window state
with exclusive mutable access: the entry becomes `f h` and every other id
is untouched. -/
theorem C3_with_window_inner_stale_noop {W : Type} (sys : Sys W) (i : Nat) (f : W → W) :
    with_window_inner sys i f =
        { sys with queue := sys.queue ++ [WorkItem.withWindow i f] } ∧
      (window_by_id sys.conn i = none →
        ∀ g : W → W, runWorkItem sys (WorkItem.withWindow i g) = sys) ∧
      (∀ h : W, window_by_id sys.conn i = some h →
        window_by_id (runWorkItem sys (WorkItem.withWindow i f)).conn i = some (f h) ∧
          (∀ j : Nat, j ≠ i →
            window_by_id (runWorkItem sys (WorkItem.withWindow i f)).conn j =
              window_by_id sys.conn j) ∧
          (runWorkItem sys (WorkItem.withWindow i f)).queue = sys.queue ∧
          (runWorkItem sys (WorkItem.withWindow i f)).conn.tasks = sys.conn.tasks) := by
  refine ⟨rfl, fun hnone g => ?_, fun h hsome => ?_⟩
  · simp [runWorkItem, hnone]
  · have hred : runWorkItem sys (WorkItem.withWindow i f) =
        { sys with conn :=
          { sys.conn with windows := updateWindow sys.conn.windows i (f h) } } := by
      simp [runWorkItem, hsome]
    rw [hred]
    exact ⟨lookupWindow_updateWindow_self sys.conn.windows i h (f h) hsome,
      fun j hj => lookupWindow_updateWindow_other sys.conn.windows i j (f h) hj,
      rfl, rfl⟩

/-- Concrete witness for C3: running the posted work for the
never-registered id 5 leaves the whole state unchanged. -/
theorem C3_with_window_inner_stale_noop_witness :
    runWorkItem
        ({ conn := { windows := [(1, 10)], next_window_id := 2, tasks := [] },
           queue := [] } : Sys Nat)
        (WorkItem.withWindow 5 (fun w => w + 1)) =
      { conn := { windows := [(1, 10)], next_window_id := 2, tasks := [] },
        queue := [] } :=
  (C3_with_window_inner_stale_noop
      ({ conn := { windows := [(1, 10)], next_window_id := 2, tasks := [] },
         queue := [] } : Sys Nat) 5 (fun w => w + 1)).2.1 rfl (fun w => w + 1)

/-- C5: `spawn_task` stores the future in a fresh task-table slot (the
slot was unoccupied, the future is stored unpolled, pre-existing slots
are untouched) and immediately posts a wake for that slot through the
spawn queue; `wake_task_by_id` only appends the poll request to the queue
and never touches the connection, so no poll happens inline — the poll
itself runs only when the queued item is executed. -/
theorem C5_spawn_task_defers_poll {W : Type} (sys : Sys W) (fut : Task) :
    spawn_task sys fut =
        { conn := { sys.conn with tasks := sys.conn.tasks ++ [some fut] },
          queue := sys.queue ++ [WorkItem.pollTask sys.conn.tasks.length] } ∧
      sys.conn.tasks[sys.conn.tasks.length]? = none ∧
      (spawn_task sys fut).conn.tasks[sys.conn.tasks.length]? = some (some fut) ∧
      (∀ s : Nat, s < sys.conn.tasks.length →
        (spawn_task sys fut).conn.tasks[s]? = sys.conn.tasks[s]?) ∧
      (∀ slot : Nat, wake_task_by_id sys slot =
        { sys with queue := sys.queue ++ [WorkItem.pollTask slot] }) ∧
      (∀ slot : Nat, (runWorkItem sys (WorkItem.pollTask slot)).conn.tasks =
        poll_by_slot sys.conn.tasks slot) := by
  refine ⟨rfl, ?_, ?_, fun s hs => ?_, fun slot => rfl, fun slot => rfl⟩
  · exact List.getElem?_eq_none (le_refl _)
  · show (sys.conn.tasks ++ [some fut])[sys.conn.tasks.length]? = some (some fut)
    exact List.getElem?_concat_length _ _
  · show (sys.conn.tasks ++ [some fut])[s]? = sys.conn.tasks[s]?
    exact List.getElem?_append_left hs

/-- Concrete witness for C5: spawning on a system with one stored task
leaves slot 0 untouched. -/
theorem C5_spawn_task_defers_poll_witness :
    (spawn_task
        ({ conn := { windows := [], next_window_id := 1, tasks := [some 4] },
           queue := [] } : Sys Nat) 3).conn.tasks[0]? =
      ({ conn := { windows := [], next_window_id := 1, tasks := [some 4] },
         queue := [] } : Sys Nat).conn.tasks[0]? :=
  (C5_spawn_task_defers_poll
      ({ conn := { windows := [], next_window_id := 1, tasks := [some 4] },
         queue := [] } : Sys Nat) 3).2.2.2.1 0 (by decide)

/-- C1: the callback is boxed exactly once by `schedule_timer`; every
fire trampoline invocation finds the box still allocated and applies the
closure in place, accumulating its captured state without ever
deallocating; for every foreign trace of `n` fires followed by the single
release (the foreign API's contract), the release trampoline deallocates
the box exactly once, after which no event touches it. -/
theorem C1_timer_box_lifecycle {σ : Type} (step : σ → σ) (init : σ) (n : Nat) :
    (∀ k : Nat, k ≤ n →
        runTimerEvents step (newTimerBox init) (List.replicate k TimerEvent.fire) =
          { contents := some (step^[k] init), released := 0 }) ∧
      runTimerEvents step (newTimerBox init) (fireTrace n) =
        { contents := none, released := 1 } := by
  constructor
  · intro k _
    rw [runTimerEvents_fires]
    rfl
  · show runTimerEvents step (newTimerBox init)
        (List.replicate n TimerEvent.fire ++ [TimerEvent.release]) = _
    rw [runTimerEvents_append, runTimerEvents_fires]
    rfl

/-- Concrete witness for C1: with a counting closure, two fires then the
release leave the box freed exactly once, and after the first of the two
fires the box still holds the stepped closure state. -/
theorem C1_timer_box_lifecycle_witness :
    runTimerEvents Nat.succ (newTimerBox 0) (List.replicate 1 TimerEvent.fire) =
        { contents := some (Nat.succ^[1] 0), released := 0 } ∧
      runTimerEvents Nat.succ (newTimerBox 0) (fireTrace 2) =
        { contents := none, released := 1 } :=
  ⟨(C1_timer_box_lifecycle Nat.succ 0 2).1 1 (by decide),
   (C1_timer_box_lifecycle Nat.succ 0 2).2⟩

/-- C2 counterexample: because `fetch_add` wraps the `usize` counter
modulo `2^64`, call number `2^64` (0-indexed) returns id 1 again — the
same id as the very first call — so over the full (unbounded) sequence of
calls the ids are not pairwise distinct and id 1 is reused within one
process lifetime. -/
theorem C2_next_window_id_cex :
    issuedId 0 = 1 ∧ issuedId USIZE = 1 ∧ (0 : Nat) ≠ USIZE :=
  ⟨rfl, issuedId_USIZE, by decide⟩

/-- C2 (amended): starting from the connection built by `create_new`, the
first issued id is 1; the ids are pairwise distinct over the first `2^64`
calls and strictly increasing in issuance order over the first
`2^64 - 1` calls (after which the counter wraps). -/
theorem C2_next_window_id_fresh :
    (∀ g : Global, (create_new Unit g).2 = Except.ok (connAfter 0)) ∧
      issuedId 0 = 1 ∧
      (∀ i j : Nat, i < j → j < USIZE → issuedId i ≠ issuedId j) ∧
      (∀ i j : Nat, i < j → j < USIZE - 1 → issuedId i < issuedId j) :=
  ⟨fun _ => rfl, rfl, issuedId_inj, issuedId_mono⟩

/-- Concrete witness for the amended C2: the first two calls return the
distinct, increasing ids 1 and 2. -/
theorem C2_next_window_id_fresh_witness :
    issuedId 0 ≠ issuedId 1 ∧ issuedId 0 < issuedId 1 :=
  ⟨C2_next_window_id_fresh.2.2.1 0 1 (by decide) (by decide),
   C2_next_window_id_fresh.2.2.2 0 1 (by decide) (by decide)⟩

/-- C9: each call to `next_window_id` returns exactly the counter value
before the call and bumps the counter by one modulo `2^64`, so
consecutive calls issue consecutive ids modulo the wrap; the `k`-th call
returns `(1 + k) % 2^64`, ids are pairwise distinct over the first
`2^64` calls, and the wrap makes call `2^64` repeat the id of call 0 —
uniqueness holds only for the first `2^64` allocations. -/
theorem C9_next_window_id_wraps :
    (∀ k : Nat, issuedId k = (connAfter k).next_window_id) ∧
      (∀ k : Nat,
        (connAfter (k + 1)).next_window_id = ((connAfter k).next_window_id + 1) % USIZE) ∧
      (∀ k : Nat, issuedId k = (1 + k) % USIZE) ∧
      (∀ k : Nat, issuedId (k + 1) = (issuedId k + 1) % USIZE) ∧
      (∀ i j : Nat, i < j → j < USIZE → issuedId i ≠ issuedId j) ∧
      issuedId USIZE = issuedId 0 := by
  refine ⟨fun k => rfl, fun k => rfl, issuedId_closed, fun k => ?_, issuedId_inj,
    issuedId_USIZE⟩
  rw [issuedId_closed, issuedId_closed, Nat.mod_add_mod, Nat.add_assoc]

/-- Concrete witness for C9: the ids of calls 0 and 1 are distinct, and
call 1 issues `(issuedId 0 + 1) % 2^64`. -/
theorem C9_next_window_id_wraps_witness :
    issuedId 0 ≠ issuedId 1 ∧ issuedId 1 = (issuedId 0 + 1) % USIZE :=
  ⟨C9_next_window_id_wraps.2.2.2.2.1 0 1 (by decide) (by decide),
   C9_next_window_id_wraps.2.2.2.1 0⟩

/-- C8: `create_new` forces the spawn-queue primitive (idempotently)
before any work exists, declares the process a regular foreground
application, and returns a connection with an empty window registry,
an empty task table and next window id 1; the singleton-establishing
wrapper fails when the singleton already exists, and otherwise installs
the singleton and returns `create_new`'s result. -/
theorem C8_create_new_initial_state (W : Type) (g : Global) :
    (create_new W g).2 =
        Except.ok { windows := [], next_window_id := 1, tasks := [] } ∧
      (create_new W g).1.spawnQueueInit = true ∧
      (create_new W g).1.activationPolicy = some ActivationPolicy.regular ∧
      spawnQueueRun (spawnQueueRun g) = spawnQueueRun g ∧
      (g.singletonExists = true →
        (Connection.init W g).2 = Except.error "connection already initialized") ∧
      (g.singletonExists = false →
        (Connection.init W g).2 = (create_new W g).2 ∧
          (Connection.init W g).1.singletonExists = true) := by
  refine ⟨rfl, rfl, rfl, rfl, fun hs => ?_, fun hs => ?_⟩
  · simp [Connection.init, hs]
  · constructor <;> simp [Connection.init, hs, create_new]

/-- Concrete witness for C8: with the singleton already present `init`
fails; with it absent `init` installs the singleton. -/
theorem C8_create_new_initial_state_witness :
    (Connection.init Unit
        { spawnQueueInit := false, activationPolicy := none, singletonExists := true }).2 =
        Except.error "connection already initialized" ∧
      (Connection.init Unit
        { spawnQueueInit := false, activationPolicy := none,
          singletonExists := false }).1.singletonExists = true :=
  ⟨(C8_create_new_initial_state Unit
      { spawnQueueInit := false, activationPolicy := none,
        singletonExists := true }).2.2.2.2.1 rfl,
   ((C8_create_new_initial_state Unit
      { spawnQueueInit := false, activationPolicy := none,
        singletonExists := false }).2.2.2.2.2 rfl).2⟩

end Wezterm
